import Mathlib

/-!
Verification development for the OtterAI JavaScript client (otterai.js).

The client class `OtterAI` is embedded shallowly: its mutable fields
(`userid`, `cookies`, and the axios session's default `Cookie` header)
become an explicit state record, and every operation becomes a pure
function from the state and the transport's responses to an `OpOut`
value recording the returned-or-thrown result, the state after the call,
the network requests attempted, and the local files written.  A transport
response is passed as `Except String R`: `.error m` models the underlying
HTTP library throwing with message `m`, `.ok r` models a delivered HTTP
response of any status.
-/

set_option autoImplicit false
set_option linter.unusedVariables false

namespace OtterJS

/-- Speech records are treated as opaque values by the client (it only
stores and concatenates them), so they are modelled by an opaque id. -/
abbrev Speech := String

/-- JavaScript value occurring in the upload-parameter object: the client
only distinguishes strings from numbers there (`String(x)` coercion). -/
inductive JVal where
  | vstr (s : String)
  | vnum (n : Int)
deriving DecidableEq, Repr

/-- The result of JavaScript `String(x)` on an optional upload-parameter
value (`none` models an absent property, i.e. `undefined`). -/
def jsStringOfJVal : Option JVal → String
  | none => "undefined"
  | some (.vstr s) => s
  | some (.vnum n) => toString n

/-- Entry of the multipart form built in `uploadSpeech` step 3. -/
inductive FormEntry where
  | jval (v : JVal)
  | file (filename : String) (contentType : String)
deriving DecidableEq, Repr

/-- Remote endpoints the client can contact. -/
inductive EP where
  | loginEP
  | userEP
  | speakersEP
  | speechesEP
  | speechEP
  | searchEP
  | uploadParamsEP
  | s3optionsEP
  | s3postEP
  | finishUploadEP
  | bulkExportEP
  | trashEP
  | createSpeakerEP
  | notifEP
  | groupsEP
  | foldersEP
deriving DecidableEq, Repr

/-- A network request as attempted by the client: the endpoint, the
`Cookie` header attached (the axios session default; `none` for the bare
axios call to the object store), and the multipart form for the S3 POST
(empty for every other request). -/
structure Req where
  ep : EP
  cookie : Option String
  form : List (String × FormEntry)
deriving DecidableEq, Repr

/-- Response envelope produced by `_handleResponse`: JS `{ status, data }`. -/
structure Envelope (α : Type) where
  status : Nat
  data : α
deriving DecidableEq, Repr

/-- Client state: `userid` and `cookies` are the instance fields of the
JS class; `cookieHeader` is the axios session's default `Cookie` header as
set by `_setCookieHeader` (it is NOT cleared when the jar empties). -/
structure OtterAI where
  userid : Option String
  cookies : List (String × String)
  cookieHeader : Option String
deriving DecidableEq, Repr

/-- Outcome of one client operation: the value returned (`.ok`) or the
`OtterAIException` message thrown (`.error`), the client state afterwards,
the network requests attempted in order, and the filenames written. -/
structure OpOut (α : Type) where
  result : Except String α
  state : OtterAI
  calls : List Req
  writes : List String

/-- Fresh client as built by the JS constructor. -/
def OtterAI.mk0 : OtterAI := ⟨none, [], none⟩

/-- JS `_isUseridInvalid`: `!this.userid`, true when `userid` is
`null`/`undefined` or the empty string. -/
def OtterAI.isUseridInvalid (c : OtterAI) : Bool :=
  match c.userid with
  | none => true
  | some s => s = ""

/-- JS object property write: update the value in place when the key
exists, append the pair otherwise. -/
def objInsert : List (String × String) → String → String → List (String × String)
  | [], key, v => [(key, v)]
  | (k, w) :: rest, key, v =>
      if k = key then (key, v) :: rest else (k, w) :: objInsert rest key v

/-- JS `String.prototype.split` with a one-character separator, on a
character list. -/
def jsSplitChars (sep : Char) : List Char → List (List Char)
  | [] => [[]]
  | c :: rest =>
      match jsSplitChars sep rest with
      | [] => [[]]
      | h :: t => if c = sep then [] :: h :: t else (c :: h) :: t

/-- JS `String.prototype.split` with a one-character separator. -/
def jsSplit (s : String) (sep : Char) : List String :=
  (jsSplitChars sep s.toList).map String.mk

/-- JS `String.prototype.trim`: strip whitespace at both ends. -/
def jsTrim (s : String) : String :=
  String.mk
    (((s.toList.dropWhile Char.isWhitespace).reverse.dropWhile
        Char.isWhitespace).reverse)

/-- JS `String.prototype.includes` with a one-character needle. -/
def jsIncludes (s : String) (c : Char) : Bool :=
  s.toList.contains c

/-- JS `_extractCookies`: for each raw `Set-Cookie` value, take the part
before the first `;`, split it on `=`, and keep trimmed name/value when
both are nonempty (`if (name && value)`); later cookies overwrite earlier
ones of the same name. -/
def extractCookies (setCookies : List String) : List (String × String) :=
  setCookies.foldl
    (fun acc cookie =>
      let nameValue := (jsSplit cookie ';').headD ""
      let parts := jsSplit nameValue '='
      let name := parts.headD ""
      match parts[1]? with
      | some value =>
          if name ≠ "" ∧ value ≠ "" then objInsert acc (jsTrim name) (jsTrim value)
          else acc
      | none => acc)
    []

/-- Serialization of the cookie jar into a single header value:
`name=value` pairs joined by `"; "`. -/
def serializeCookies (m : List (String × String)) : String :=
  String.intercalate "; " (m.map (fun p => p.1 ++ "=" ++ p.2))

/-- JS `_setCookieHeader`: overwrite the session's default `Cookie` header
from the jar, but only when the jar is nonempty. -/
def setCookieHeader (c : OtterAI) : OtterAI :=
  if c.cookies ≠ [] then { c with cookieHeader := some (serializeCookies c.cookies) }
  else c

/-- A transport-level interaction result: `.error m` models the HTTP
library throwing with message `m`, `.ok r` a delivered response. -/
abbrev TR (α : Type) := Except String α

instance {ε α : Type} [DecidableEq ε] [DecidableEq α] : DecidableEq (Except ε α) := fun x y =>
  match x, y with
  | .ok a, .ok b =>
      if h : a = b then .isTrue (by rw [h]) else .isFalse (fun hc => h (Except.ok.inj hc))
  | .error a, .error b =>
      if h : a = b then .isTrue (by rw [h]) else .isFalse (fun hc => h (Except.error.inj hc))
  | .ok _, .error _ => .isFalse (fun hc => Except.noConfusion hc)
  | .error _, .ok _ => .isFalse (fun hc => Except.noConfusion hc)

/-- Body of the login response: the `userid` field the client reads
(`none` when absent) and an opaque rendering of the rest of the body. -/
structure LoginBody where
  userid : Option String
  rest : String
deriving DecidableEq, Repr

/-- HTTP response to the login request. -/
structure LoginResp where
  status : Nat
  body : LoginBody
  setCookies : List String
deriving DecidableEq, Repr

/-- HTTP response whose body the client passes through opaquely. -/
structure SimpleResp where
  status : Nat
  body : String
deriving DecidableEq, Repr

/-- JS `login`: GET with basic auth; on a non-200 status return the
envelope untouched; on 200, set `userid` from the body, replace the
cookie jar from the response, and refresh the session cookie header. -/
def OtterAI.login (c : OtterAI) (username password : String) (net : TR LoginResp) :
    OpOut (Envelope LoginBody) :=
  let req : Req := ⟨.loginEP, c.cookieHeader, []⟩
  match net with
  | .error m => ⟨.error ("Login failed: " ++ m), c, [req], []⟩
  | .ok r =>
      if r.status ≠ 200 then ⟨.ok ⟨r.status, r.body⟩, c, [req], []⟩
      else
        let c1 : OtterAI :=
          { userid := r.body.userid
            cookies := extractCookies r.setCookies
            cookieHeader := c.cookieHeader }
        ⟨.ok ⟨r.status, r.body⟩, setCookieHeader c1, [req], []⟩

/-- JS `getUser`: plain GET, not identity-gated, envelope passed through. -/
def OtterAI.getUser (c : OtterAI) (net : TR SimpleResp) : OpOut (Envelope String) :=
  let req : Req := ⟨.userEP, c.cookieHeader, []⟩
  match net with
  | .error m => ⟨.error ("Get user failed: " ++ m), c, [req], []⟩
  | .ok r => ⟨.ok ⟨r.status, r.body⟩, c, [req], []⟩

/-- JS `getSpeakers`: identity-gated GET, envelope passed through. -/
def OtterAI.getSpeakers (c : OtterAI) (net : TR SimpleResp) : OpOut (Envelope String) :=
  if c.isUseridInvalid then ⟨.error "userid is invalid", c, [], []⟩
  else
    let req : Req := ⟨.speakersEP, c.cookieHeader, []⟩
    match net with
    | .error m => ⟨.error ("Get speakers failed: " ++ m), c, [req], []⟩
    | .ok r => ⟨.ok ⟨r.status, r.body⟩, c, [req], []⟩

/-- Body of a `speeches` response: the `speeches` array the client reads
(`none` when the field is absent or falsy) plus the opaque rest. -/
structure SpeechesBody where
  speeches : Option (List Speech)
  rest : String
deriving DecidableEq, Repr

/-- HTTP response to the `speeches` request. -/
structure SpeechesResp where
  status : Nat
  body : SpeechesBody
deriving DecidableEq, Repr

/-- JS `getSpeeches(folder, pageSize, source)`: identity-gated GET,
envelope passed through. -/
def OtterAI.getSpeeches (c : OtterAI) (folder pageSize : Nat) (source : String)
    (net : TR SpeechesResp) : OpOut (Envelope SpeechesBody) :=
  if c.isUseridInvalid then ⟨.error "userid is invalid", c, [], []⟩
  else
    let req : Req := ⟨.speechesEP, c.cookieHeader, []⟩
    match net with
    | .error m => ⟨.error ("Get speeches failed: " ++ m), c, [req], []⟩
    | .ok r => ⟨.ok ⟨r.status, r.body⟩, c, [req], []⟩

/-- Data constructed by `getAllSpeeches` on success. -/
structure AllSpeechesData where
  speeches : List Speech
  total_count : Nat
  note : String
deriving DecidableEq, Repr

/-- JS `getAllSpeeches(folder, source, maxSpeeches)`: one `getSpeeches`
call with page size `min maxSpeeches 200`; non-200 status or a missing
`speeches` field raises, and every raised error is rewrapped by the
enclosing catch with the `Get all speeches failed:` prefix. -/
def OtterAI.getAllSpeeches (c : OtterAI) (folder : Nat) (source : String)
    (maxSpeeches : Nat) (net : TR SpeechesResp) : OpOut (Envelope AllSpeechesData) :=
  if c.isUseridInvalid then ⟨.error "userid is invalid", c, [], []⟩
  else
    let largePageSize := min maxSpeeches 200
    let inner := c.getSpeeches folder largePageSize source net
    match inner.result with
    | .error m => ⟨.error ("Get all speeches failed: " ++ m), c, inner.calls, []⟩
    | .ok env =>
        match env.data.speeches with
        | none =>
            ⟨.error ("Get all speeches failed: Failed to get speeches: " ++
              toString env.status), c, inner.calls, []⟩
        | some speeches =>
            if env.status ≠ 200 then
              ⟨.error ("Get all speeches failed: Failed to get speeches: " ++
                toString env.status), c, inner.calls, []⟩
            else
              ⟨.ok ⟨200,
                ⟨speeches, speeches.length,
                  if speeches.length = largePageSize then
                    "Max page size reached - there may be more speeches"
                  else "All available speeches retrieved"⟩⟩, c, inner.calls, []⟩

/-- Summary block of `getAllSpeechesFromAllSources`. -/
structure AllSourcesSummary where
  owned_count : Nat
  shared_count : Nat
  total_count : Nat
deriving DecidableEq, Repr

/-- Data constructed by `getAllSpeechesFromAllSources`: the per-source
lists, the running `total` accumulator, the merged `all_speeches` array,
and the summary. -/
structure AllSourcesData where
  owned : List Speech
  shared : List Speech
  total : Nat
  all_speeches : List Speech
  summary : AllSourcesSummary
deriving DecidableEq, Repr

/-- JS `getAllSpeechesFromAllSources(folder, maxPerSource)`: fetch the
sources `owned` then `shared` via `getAllSpeeches`; a throw from one
source is caught, leaving that source's list empty and the `total`
accumulator untouched; the call itself always returns status 200. -/
def OtterAI.getAllSpeechesFromAllSources (c : OtterAI) (folder maxPerSource : Nat)
    (netOwned netShared : TR SpeechesResp) : OpOut (Envelope AllSourcesData) :=
  if c.isUseridInvalid then ⟨.error "userid is invalid", c, [], []⟩
  else
    let oOut := c.getAllSpeeches folder "owned" maxPerSource netOwned
    let ownedStep : List Speech × Nat :=
      match oOut.result with
      | .ok env => (env.data.speeches, env.data.speeches.length)
      | .error _ => ([], 0)
    let sOut := c.getAllSpeeches folder "shared" maxPerSource netShared
    let sharedStep : List Speech × Nat :=
      match sOut.result with
      | .ok env => (env.data.speeches, env.data.speeches.length)
      | .error _ => ([], 0)
    ⟨.ok ⟨200,
      ⟨ownedStep.1, sharedStep.1, ownedStep.2 + sharedStep.2,
        ownedStep.1 ++ sharedStep.1,
        ⟨ownedStep.1.length, sharedStep.1.length, ownedStep.2 + sharedStep.2⟩⟩⟩,
      c, oOut.calls ++ sOut.calls, []⟩

/-- JS `getSpeech(speechId)`: identity-gated GET, envelope passed through. -/
def OtterAI.getSpeech (c : OtterAI) (speechId : String) (net : TR SimpleResp) :
    OpOut (Envelope String) :=
  if c.isUseridInvalid then ⟨.error "userid is invalid", c, [], []⟩
  else
    let req : Req := ⟨.speechEP, c.cookieHeader, []⟩
    match net with
    | .error m => ⟨.error ("Get speech failed: " ++ m), c, [req], []⟩
    | .ok r => ⟨.ok ⟨r.status, r.body⟩, c, [req], []⟩

/-- JS `querySpeech(query, speechId, size)`: plain GET, not gated. -/
def OtterAI.querySpeech (c : OtterAI) (query speechId : String) (size : Nat)
    (net : TR SimpleResp) : OpOut (Envelope String) :=
  let req : Req := ⟨.searchEP, c.cookieHeader, []⟩
  match net with
  | .error m => ⟨.error ("Query speech failed: " ++ m), c, [req], []⟩
  | .ok r => ⟨.ok ⟨r.status, r.body⟩, c, [req], []⟩

/-- JS object lookup on the upload-parameter object (keys unique). -/
def jlookup : List (String × JVal) → String → Option JVal
  | [], _ => none
  | (k, v) :: rest, key => if k = key then some v else jlookup rest key

/-- JS object property assignment on the upload-parameter object: update
in place when the key exists, append otherwise. -/
def jset : List (String × JVal) → String → JVal → List (String × JVal)
  | [], key, v => [(key, v)]
  | (k, w) :: rest, key, v =>
      if k = key then (key, v) :: rest else (k, w) :: jset rest key v

/-- JS `delete obj[key]`. -/
def jdelete : List (String × JVal) → String → List (String × JVal)
  | [], _ => []
  | (k, w) :: rest, key =>
      if k = key then jdelete rest key else (k, w) :: jdelete rest key

/-- Lookup in the multipart form. -/
def formLookup : List (String × FormEntry) → String → Option FormEntry
  | [], _ => none
  | (k, v) :: rest, key => if k = key then some v else formLookup rest key

/-- Whether an optional form entry is a string-valued plain field. -/
def isStrEntry : Option FormEntry → Bool
  | some (.jval (.vstr _)) => true
  | _ => false

/-- JS `path.basename`: last `/`-separated component. -/
def jsBasename (s : String) : String :=
  (jsSplit s '/').getLastD s

/-- The multipart form built in `uploadSpeech` step 3: coerce
`success_action_status` to a string with JS `String(...)`, delete
`form_action`, append every remaining parameter in key order, then the
file part. -/
def uploadForm (paramsData : List (String × JVal)) (fileName contentType : String) :
    List (String × FormEntry) :=
  let pd1 := jset paramsData "success_action_status"
    (.vstr (jsStringOfJVal (jlookup paramsData "success_action_status")))
  let pd2 := jdelete pd1 "form_action"
  pd2.map (fun p => (p.1, FormEntry.jval p.2)) ++
    [("file", FormEntry.file (jsBasename fileName) contentType)]

/-- Body of the step-1 `speech_upload_params` response: its `data` field
(the presigned-POST parameter object) and the opaque rest. -/
structure Step1Body where
  data : List (String × JVal)
  rest : String
deriving DecidableEq, Repr

/-- HTTP response to the step-1 request. -/
structure Step1Resp where
  status : Nat
  body : Step1Body
deriving DecidableEq, Repr

/-- The fields the client extracts from the object store's XML success
body (`PostResponse.Location/Bucket/Key`). -/
structure S3Body where
  location : String
  bucket : String
  key : String
deriving DecidableEq, Repr

/-- HTTP response to the step-3 multipart POST. -/
structure S3Resp where
  status : Nat
  body : S3Body
deriving DecidableEq, Repr

/-- The body carried by the envelope `uploadSpeech` returns, tagged by
the step whose response produced it. -/
inductive UploadBody where
  | fromStep1 (b : Step1Body)
  | fromPreflight (b : String)
  | fromS3 (b : S3Body)
  | fromFinish (b : String)
deriving DecidableEq, Repr

/-- JS `uploadSpeech(fileName, contentType)`: four ordered steps; every
non-success status short-circuits, returning that step's envelope; the
step-3 POST goes through bare axios (no session cookie header). -/
def OtterAI.uploadSpeech (c : OtterAI) (fileName contentType : String)
    (net1 : TR Step1Resp) (net2 : TR SimpleResp) (net3 : TR S3Resp)
    (net4 : TR SimpleResp) : OpOut (Envelope UploadBody) :=
  if c.isUseridInvalid then ⟨.error "userid is invalid", c, [], []⟩
  else
    let req1 : Req := ⟨.uploadParamsEP, c.cookieHeader, []⟩
    match net1 with
    | .error m => ⟨.error ("Upload speech failed: " ++ m), c, [req1], []⟩
    | .ok r1 =>
        if r1.status ≠ 200 then ⟨.ok ⟨r1.status, .fromStep1 r1.body⟩, c, [req1], []⟩
        else
          let req2 : Req := ⟨.s3optionsEP, c.cookieHeader, []⟩
          match net2 with
          | .error m => ⟨.error ("Upload speech failed: " ++ m), c, [req1, req2], []⟩
          | .ok r2 =>
              if r2.status ≠ 200 then
                ⟨.ok ⟨r2.status, .fromPreflight r2.body⟩, c, [req1, req2], []⟩
              else
                let form := uploadForm r1.body.data fileName contentType
                let req3 : Req := ⟨.s3postEP, none, form⟩
                match net3 with
                | .error m =>
                    ⟨.error ("Upload speech failed: " ++ m), c, [req1, req2, req3], []⟩
                | .ok r3 =>
                    if r3.status ≠ 201 then
                      ⟨.ok ⟨r3.status, .fromS3 r3.body⟩, c, [req1, req2, req3], []⟩
                    else
                      let req4 : Req := ⟨.finishUploadEP, c.cookieHeader, []⟩
                      match net4 with
                      | .error m =>
                          ⟨.error ("Upload speech failed: " ++ m), c,
                            [req1, req2, req3, req4], []⟩
                      | .ok r4 =>
                          ⟨.ok ⟨r4.status, .fromFinish r4.body⟩, c,
                            [req1, req2, req3, req4], []⟩

/-- HTTP response to the bulk-export POST (body = raw bytes). -/
structure DownloadResp where
  status : Nat
  body : String
deriving DecidableEq, Repr

/-- The data `downloadSpeech` returns on success. -/
structure DownloadData where
  filename : String
deriving DecidableEq, Repr

/-- The filename computed by `downloadSpeech`:
`(name || speechId) + "." + (fileFormat.includes(",") ? "zip" : fileFormat)`.
JS `||` falls back when `name` is null, undefined, or the empty string. -/
def downloadFilename (speechId : String) (name : Option String) (fileFormat : String) :
    String :=
  (match name with
   | some s => if s = "" then speechId else s
   | none => speechId) ++ "." ++
    (if jsIncludes fileFormat ',' then "zip" else fileFormat)

/-- JS `downloadSpeech(speechId, name, fileFormat)`: identity-gated
CSRF-headed POST; on status 200 write the bytes to the computed filename
and return an envelope whose data is `{ filename }`; on any other status
throw (the inner throw is rewrapped by the enclosing catch). -/
def OtterAI.downloadSpeech (c : OtterAI) (speechId : String) (name : Option String)
    (fileFormat : String) (net : TR DownloadResp) : OpOut (Envelope DownloadData) :=
  if c.isUseridInvalid then ⟨.error "userid is invalid", c, [], []⟩
  else
    let req : Req := ⟨.bulkExportEP, c.cookieHeader, []⟩
    match net with
    | .error m => ⟨.error ("Download speech failed: " ++ m), c, [req], []⟩
    | .ok r =>
        let filename := downloadFilename speechId name fileFormat
        if r.status = 200 then
          ⟨.ok ⟨r.status, ⟨filename⟩⟩, c, [req], [filename]⟩
        else
          ⟨.error ("Download speech failed: Got response status " ++
            toString r.status ++ " when attempting to download " ++ speechId),
            c, [req], []⟩

/-- JS `moveToTrashBin(speechId)`: identity-gated CSRF-headed POST. -/
def OtterAI.moveToTrashBin (c : OtterAI) (speechId : String) (net : TR SimpleResp) :
    OpOut (Envelope String) :=
  if c.isUseridInvalid then ⟨.error "userid is invalid", c, [], []⟩
  else
    let req : Req := ⟨.trashEP, c.cookieHeader, []⟩
    match net with
    | .error m => ⟨.error ("Move to trash bin failed: " ++ m), c, [req], []⟩
    | .ok r => ⟨.ok ⟨r.status, r.body⟩, c, [req], []⟩

/-- JS `createSpeaker(speakerName)`: identity-gated CSRF-headed POST. -/
def OtterAI.createSpeaker (c : OtterAI) (speakerName : String) (net : TR SimpleResp) :
    OpOut (Envelope String) :=
  if c.isUseridInvalid then ⟨.error "userid is invalid", c, [], []⟩
  else
    let req : Req := ⟨.createSpeakerEP, c.cookieHeader, []⟩
    match net with
    | .error m => ⟨.error ("Create speaker failed: " ++ m), c, [req], []⟩
    | .ok r => ⟨.ok ⟨r.status, r.body⟩, c, [req], []⟩

/-- JS `getNotificationSettings()`: plain GET, not gated. -/
def OtterAI.getNotificationSettings (c : OtterAI) (net : TR SimpleResp) :
    OpOut (Envelope String) :=
  let req : Req := ⟨.notifEP, c.cookieHeader, []⟩
  match net with
  | .error m => ⟨.error ("Get notification settings failed: " ++ m), c, [req], []⟩
  | .ok r => ⟨.ok ⟨r.status, r.body⟩, c, [req], []⟩

/-- JS `listGroups()`: identity-gated GET. -/
def OtterAI.listGroups (c : OtterAI) (net : TR SimpleResp) : OpOut (Envelope String) :=
  if c.isUseridInvalid then ⟨.error "userid is invalid", c, [], []⟩
  else
    let req : Req := ⟨.groupsEP, c.cookieHeader, []⟩
    match net with
    | .error m => ⟨.error ("List groups failed: " ++ m), c, [req], []⟩
    | .ok r => ⟨.ok ⟨r.status, r.body⟩, c, [req], []⟩

/-- JS `getFolders()`: identity-gated GET. -/
def OtterAI.getFolders (c : OtterAI) (net : TR SimpleResp) : OpOut (Envelope String) :=
  if c.isUseridInvalid then ⟨.error "userid is invalid", c, [], []⟩
  else
    let req : Req := ⟨.foldersEP, c.cookieHeader, []⟩
    match net with
    | .error m => ⟨.error ("Get folders failed: " ++ m), c, [req], []⟩
    | .ok r => ⟨.ok ⟨r.status, r.body⟩, c, [req], []⟩

/-- Modelled from the spec (section 4.5 and the testable properties):
the filename formula the specification states for `downloadSpeech`,
written with `??` semantics — `name ?? speechId` falls back only when
`name` is null or undefined, not when it is the empty string. -/
def specFilename (speechId : String) (name : Option String) (fileFormat : String) :
    String :=
  name.getD speechId ++ "." ++
    (if jsIncludes fileFormat ',' then "zip" else fileFormat)

theorem setCookieHeader_userid (c : OtterAI) : (setCookieHeader c).userid = c.userid := by
  unfold setCookieHeader
  split <;> rfl

theorem setCookieHeader_cookies (c : OtterAI) : (setCookieHeader c).cookies = c.cookies := by
  unfold setCookieHeader
  split <;> rfl

/-- Shared lemma: with an invalid `userid`, every identity-gated operation
throws `userid is invalid`, leaves the state unchanged, contacts no
endpoint, and writes no file. -/
theorem gatedOpsFail (c : OtterAI) (h : c.isUseridInvalid = true)
    (netS : TR SimpleResp) (netSp : TR SpeechesResp) (netD : TR DownloadResp)
    (net1 : TR Step1Resp) (net3 : TR S3Resp) (folder pageSize maxSpeeches : Nat)
    (source speechId fileName contentType speakerName fileFormat : String)
    (name : Option String) :
    c.getSpeakers netS = ⟨.error "userid is invalid", c, [], []⟩ ∧
    c.getSpeeches folder pageSize source netSp = ⟨.error "userid is invalid", c, [], []⟩ ∧
    c.getAllSpeeches folder source maxSpeeches netSp =
      ⟨.error "userid is invalid", c, [], []⟩ ∧
    c.getAllSpeechesFromAllSources folder maxSpeeches netSp netSp =
      ⟨.error "userid is invalid", c, [], []⟩ ∧
    c.getSpeech speechId netS = ⟨.error "userid is invalid", c, [], []⟩ ∧
    c.uploadSpeech fileName contentType net1 netS net3 netS =
      ⟨.error "userid is invalid", c, [], []⟩ ∧
    c.downloadSpeech speechId name fileFormat netD =
      ⟨.error "userid is invalid", c, [], []⟩ ∧
    c.moveToTrashBin speechId netS = ⟨.error "userid is invalid", c, [], []⟩ ∧
    c.createSpeaker speakerName netS = ⟨.error "userid is invalid", c, [], []⟩ ∧
    c.listGroups netS = ⟨.error "userid is invalid", c, [], []⟩ ∧
    c.getFolders netS = ⟨.error "userid is invalid", c, [], []⟩ := by
  refine ⟨?_, ?_, ?_, ?_, ?_, ?_, ?_, ?_, ?_, ?_, ?_⟩ <;>
    simp [OtterAI.getSpeakers, OtterAI.getSpeeches, OtterAI.getAllSpeeches,
      OtterAI.getAllSpeechesFromAllSources, OtterAI.getSpeech, OtterAI.uploadSpeech,
      OtterAI.downloadSpeech, OtterAI.moveToTrashBin, OtterAI.createSpeaker,
      OtterAI.listGroups, OtterAI.getFolders, h]

/-- Claim C1: on a client with no successful login (`userid` null), every
identity-gated operation (getSpeakers, getSpeeches, getAllSpeeches,
getAllSpeechesFromAllSources, getSpeech, uploadSpeech, downloadSpeech,
moveToTrashBin, createSpeaker, listGroups, getFolders) fails with the
`userid is invalid` domain error and attempts zero network calls. -/
theorem c1_unauthenticated_ops_fail (c : OtterAI) (h : c.userid = none)
    (netS : TR SimpleResp) (netSp : TR SpeechesResp) (netD : TR DownloadResp)
    (net1 : TR Step1Resp) (net3 : TR S3Resp) (folder pageSize maxSpeeches : Nat)
    (source speechId fileName contentType speakerName fileFormat : String)
    (name : Option String) :
    c.getSpeakers netS = ⟨.error "userid is invalid", c, [], []⟩ ∧
    c.getSpeeches folder pageSize source netSp = ⟨.error "userid is invalid", c, [], []⟩ ∧
    c.getAllSpeeches folder source maxSpeeches netSp =
      ⟨.error "userid is invalid", c, [], []⟩ ∧
    c.getAllSpeechesFromAllSources folder maxSpeeches netSp netSp =
      ⟨.error "userid is invalid", c, [], []⟩ ∧
    c.getSpeech speechId netS = ⟨.error "userid is invalid", c, [], []⟩ ∧
    c.uploadSpeech fileName contentType net1 netS net3 netS =
      ⟨.error "userid is invalid", c, [], []⟩ ∧
    c.downloadSpeech speechId name fileFormat netD =
      ⟨.error "userid is invalid", c, [], []⟩ ∧
    c.moveToTrashBin speechId netS = ⟨.error "userid is invalid", c, [], []⟩ ∧
    c.createSpeaker speakerName netS = ⟨.error "userid is invalid", c, [], []⟩ ∧
    c.listGroups netS = ⟨.error "userid is invalid", c, [], []⟩ ∧
    c.getFolders netS = ⟨.error "userid is invalid", c, [], []⟩ :=
  gatedOpsFail c (by simp [OtterAI.isUseridInvalid, h]) netS netSp netD net1 net3
    folder pageSize maxSpeeches source speechId fileName contentType speakerName
    fileFormat name

/-- Witness for C1 at the freshly constructed client and concrete
responses. -/
theorem c1_unauthenticated_ops_fail_witness :
    OtterAI.mk0.userid = none ∧
    (OtterAI.mk0.getSpeakers (.ok ⟨200, "b"⟩) =
        ⟨.error "userid is invalid", OtterAI.mk0, [], []⟩ ∧
      OtterAI.mk0.getSpeeches 0 45 "owned" (.ok ⟨200, ⟨some [], "r"⟩⟩) =
        ⟨.error "userid is invalid", OtterAI.mk0, [], []⟩ ∧
      OtterAI.mk0.getAllSpeeches 0 "owned" 1000 (.ok ⟨200, ⟨some [], "r"⟩⟩) =
        ⟨.error "userid is invalid", OtterAI.mk0, [], []⟩ ∧
      OtterAI.mk0.getAllSpeechesFromAllSources 0 1000 (.ok ⟨200, ⟨some [], "r"⟩⟩)
          (.ok ⟨200, ⟨some [], "r"⟩⟩) =
        ⟨.error "userid is invalid", OtterAI.mk0, [], []⟩ ∧
      OtterAI.mk0.getSpeech "id1" (.ok ⟨200, "b"⟩) =
        ⟨.error "userid is invalid", OtterAI.mk0, [], []⟩ ∧
      OtterAI.mk0.uploadSpeech "f.mp4" "audio/mp4" (.ok ⟨200, ⟨[], "r"⟩⟩)
          (.ok ⟨200, "b"⟩) (.ok ⟨201, ⟨"L", "B", "K"⟩⟩) (.ok ⟨200, "b"⟩) =
        ⟨.error "userid is invalid", OtterAI.mk0, [], []⟩ ∧
      OtterAI.mk0.downloadSpeech "id1" none "txt" (.ok ⟨200, "bytes"⟩) =
        ⟨.error "userid is invalid", OtterAI.mk0, [], []⟩ ∧
      OtterAI.mk0.moveToTrashBin "id1" (.ok ⟨200, "b"⟩) =
        ⟨.error "userid is invalid", OtterAI.mk0, [], []⟩ ∧
      OtterAI.mk0.createSpeaker "alice" (.ok ⟨200, "b"⟩) =
        ⟨.error "userid is invalid", OtterAI.mk0, [], []⟩ ∧
      OtterAI.mk0.listGroups (.ok ⟨200, "b"⟩) =
        ⟨.error "userid is invalid", OtterAI.mk0, [], []⟩ ∧
      OtterAI.mk0.getFolders (.ok ⟨200, "b"⟩) =
        ⟨.error "userid is invalid", OtterAI.mk0, [], []⟩) :=
  ⟨rfl, c1_unauthenticated_ops_fail OtterAI.mk0 rfl (.ok ⟨200, "b"⟩)
    (.ok ⟨200, ⟨some [], "r"⟩⟩) (.ok ⟨200, "bytes"⟩) (.ok ⟨200, ⟨[], "r"⟩⟩)
    (.ok ⟨201, ⟨"L", "B", "K"⟩⟩) 0 45 1000 "owned" "id1" "f.mp4" "audio/mp4"
    "alice" "txt" none⟩

/-- Claim C8: when the remote login response has a status other than 200,
`login` returns that response's envelope unchanged and the client state
(userid, cookie jar, and session cookie header) is exactly as before. -/
theorem c8_login_non200_no_mutation (c : OtterAI) (u p : String) (r : LoginResp)
    (h : r.status ≠ 200) :
    (c.login u p (.ok r)).result = .ok ⟨r.status, r.body⟩ ∧
    (c.login u p (.ok r)).state = c := by
  simp [OtterAI.login, h]

/-- Witness for C8 at a concrete 401 response. -/
theorem c8_login_non200_no_mutation_witness :
    (401 : Nat) ≠ 200 ∧
    ((OtterAI.mk0.login "u" "p" (.ok ⟨401, ⟨none, "err"⟩, []⟩)).result =
        .ok ⟨401, ⟨none, "err"⟩⟩ ∧
      (OtterAI.mk0.login "u" "p" (.ok ⟨401, ⟨none, "err"⟩, []⟩)).state = OtterAI.mk0) :=
  ⟨by decide, c8_login_non200_no_mutation OtterAI.mk0 "u" "p" ⟨401, ⟨none, "err"⟩, []⟩
    (by decide)⟩

/-- Claim C10: a login whose HTTP 200 response body has no `userid` field
returns the 200 envelope, but leaves the client's `userid` absent, so
every identity-gated operation afterwards still fails with the
`userid is invalid` domain error and no network call. -/
theorem c10_login_200_without_userid (c : OtterAI) (u p rest : String)
    (setCookies : List String) (netS : TR SimpleResp) (netSp : TR SpeechesResp)
    (netD : TR DownloadResp) (net1 : TR Step1Resp) (net3 : TR S3Resp)
    (folder pageSize maxSpeeches : Nat)
    (source speechId fileName contentType speakerName fileFormat : String)
    (name : Option String) :
    let out := c.login u p (.ok ⟨200, ⟨none, rest⟩, setCookies⟩)
    out.result = .ok ⟨200, ⟨none, rest⟩⟩ ∧
    out.state.userid = none ∧
    out.state.getSpeakers netS = ⟨.error "userid is invalid", out.state, [], []⟩ ∧
    out.state.getSpeeches folder pageSize source netSp =
      ⟨.error "userid is invalid", out.state, [], []⟩ ∧
    out.state.getAllSpeeches folder source maxSpeeches netSp =
      ⟨.error "userid is invalid", out.state, [], []⟩ ∧
    out.state.getAllSpeechesFromAllSources folder maxSpeeches netSp netSp =
      ⟨.error "userid is invalid", out.state, [], []⟩ ∧
    out.state.getSpeech speechId netS = ⟨.error "userid is invalid", out.state, [], []⟩ ∧
    out.state.uploadSpeech fileName contentType net1 netS net3 netS =
      ⟨.error "userid is invalid", out.state, [], []⟩ ∧
    out.state.downloadSpeech speechId name fileFormat netD =
      ⟨.error "userid is invalid", out.state, [], []⟩ ∧
    out.state.moveToTrashBin speechId netS =
      ⟨.error "userid is invalid", out.state, [], []⟩ ∧
    out.state.createSpeaker speakerName netS =
      ⟨.error "userid is invalid", out.state, [], []⟩ ∧
    out.state.listGroups netS = ⟨.error "userid is invalid", out.state, [], []⟩ ∧
    out.state.getFolders netS = ⟨.error "userid is invalid", out.state, [], []⟩ := by
  intro out
  have hres : out.result = .ok ⟨200, ⟨none, rest⟩⟩ := by
    simp [out, OtterAI.login]
  have hst : out.state.userid = none := by
    show (setCookieHeader _).userid = none
    rw [setCookieHeader_userid]
  have hInv : out.state.isUseridInvalid = true := by
    simp [OtterAI.isUseridInvalid, hst]
  exact ⟨hres, hst,
    gatedOpsFail out.state hInv netS netSp netD net1 net3 folder pageSize maxSpeeches
      source speechId fileName contentType speakerName fileFormat name⟩

theorem getSpeakers_calls (st : OtterAI) (rs : SimpleResp) :
    (st.getSpeakers (.ok rs)).calls =
      if st.isUseridInvalid then [] else [⟨.speakersEP, st.cookieHeader, []⟩] := by
  by_cases h : st.isUseridInvalid = true <;> simp [OtterAI.getSpeakers, h]

/-- Counterexample to C3: after a first login that sets the cookie
`sid=first` and a second successful login whose response sets no cookie,
the cookie jar is empty, yet the next request still carries the first
login's `Cookie: sid=first` header — a first-login cookie appears in a
request sent after the second login. -/
theorem c3_counterexample :
    ((((OtterAI.mk0.login "alice" "pw"
            (.ok ⟨200, ⟨some "u1", "r1"⟩, ["sid=first"]⟩)).state.login "alice" "pw"
            (.ok ⟨200, ⟨some "u2", "r2"⟩, []⟩)).state.getSpeakers
            (.ok ⟨200, "b"⟩)).calls =
        [⟨.speakersEP, some "sid=first", []⟩]) ∧
    (((OtterAI.mk0.login "alice" "pw"
          (.ok ⟨200, ⟨some "u1", "r1"⟩, ["sid=first"]⟩)).state.login "alice" "pw"
          (.ok ⟨200, ⟨some "u2", "r2"⟩, []⟩)).state.cookies = []) := by
  decide

/-- Claim C3 as amended: a successful login replaces the Identity with
the new response's `userid` and replaces the cookie jar wholesale and,
whenever the new jar is nonempty, rebuilds the serialized `Cookie` header
from the new jar alone (so no first-login cookie survives in later
requests); but when the new jar is empty the previously set `Cookie`
header persists and continues to be sent; subsequent requests always
carry the state's current header. -/
theorem c3_amended_cookie_replacement (c : OtterAI) (u p : String) (r : LoginResp)
    (rs : SimpleResp) (h200 : r.status = 200) :
    (c.login u p (.ok r)).state.userid = r.body.userid ∧
    (c.login u p (.ok r)).state.cookies = extractCookies r.setCookies ∧
    (extractCookies r.setCookies ≠ [] →
      (c.login u p (.ok r)).state.cookieHeader =
        some (serializeCookies (extractCookies r.setCookies))) ∧
    (extractCookies r.setCookies = [] →
      (c.login u p (.ok r)).state.cookieHeader = c.cookieHeader) ∧
    ((c.login u p (.ok r)).state.getSpeakers (.ok rs)).calls =
      (if (c.login u p (.ok r)).state.isUseridInvalid then []
       else [⟨.speakersEP, (c.login u p (.ok r)).state.cookieHeader, []⟩]) := by
  have hstate : (c.login u p (.ok r)).state =
      setCookieHeader ⟨r.body.userid, extractCookies r.setCookies, c.cookieHeader⟩ := by
    simp [OtterAI.login, h200]
  rw [hstate]
  refine ⟨?_, ?_, ?_, ?_, getSpeakers_calls _ rs⟩
  · rw [setCookieHeader_userid]
  · rw [setCookieHeader_cookies]
  · intro hne
    simp [setCookieHeader, hne]
  · intro he
    simp [setCookieHeader, he]

/-- Witness for the amended C3 at a concrete second login that does set a
cookie, starting from a state still holding the first login's cookie. -/
theorem c3_amended_cookie_replacement_witness :
    (200 : Nat) = 200 ∧
    (((⟨some "u1", [("sid", "first")], some "sid=first"⟩ : OtterAI).login "alice" "pw"
          (.ok ⟨200, ⟨some "u2", "r2"⟩, ["tok=abc"]⟩)).state.userid = some "u2" ∧
      ((⟨some "u1", [("sid", "first")], some "sid=first"⟩ : OtterAI).login "alice" "pw"
          (.ok ⟨200, ⟨some "u2", "r2"⟩, ["tok=abc"]⟩)).state.cookies =
        extractCookies ["tok=abc"] ∧
      (extractCookies ["tok=abc"] ≠ [] →
        ((⟨some "u1", [("sid", "first")], some "sid=first"⟩ : OtterAI).login "alice" "pw"
            (.ok ⟨200, ⟨some "u2", "r2"⟩, ["tok=abc"]⟩)).state.cookieHeader =
          some (serializeCookies (extractCookies ["tok=abc"]))) ∧
      (extractCookies ["tok=abc"] = [] →
        ((⟨some "u1", [("sid", "first")], some "sid=first"⟩ : OtterAI).login "alice" "pw"
            (.ok ⟨200, ⟨some "u2", "r2"⟩, ["tok=abc"]⟩)).state.cookieHeader =
          some "sid=first") ∧
      ((((⟨some "u1", [("sid", "first")], some "sid=first"⟩ : OtterAI).login "alice" "pw"
            (.ok ⟨200, ⟨some "u2", "r2"⟩, ["tok=abc"]⟩)).state.getSpeakers
            (.ok ⟨200, "b"⟩)).calls =
        (if (((⟨some "u1", [("sid", "first")], some "sid=first"⟩ : OtterAI).login "alice"
              "pw" (.ok ⟨200, ⟨some "u2", "r2"⟩, ["tok=abc"]⟩)).state.isUseridInvalid
            : Bool) then []
         else [⟨.speakersEP,
            (((⟨some "u1", [("sid", "first")], some "sid=first"⟩ : OtterAI).login "alice"
                "pw" (.ok ⟨200, ⟨some "u2", "r2"⟩, ["tok=abc"]⟩)).state.cookieHeader),
            []⟩]))) :=
  ⟨rfl, c3_amended_cookie_replacement
    ⟨some "u1", [("sid", "first")], some "sid=first"⟩ "alice" "pw"
    ⟨200, ⟨some "u2", "r2"⟩, ["tok=abc"]⟩ ⟨200, "b"⟩ rfl⟩

/-- Counterexample to C2: `downloadSpeech` on an authenticated client
receiving a remote 404 does not return the `(status, data)` envelope —
it throws the download domain error. -/
theorem c2_counterexample :
    ((⟨some "u", [], none⟩ : OtterAI).downloadSpeech "id1" none "txt"
        (.ok ⟨404, "payload"⟩)).result =
      .error
        "Download speech failed: Got response status 404 when attempting to download id1" := by
  decide

/-- Claim C2 as amended: the plain request operations (login, getUser,
getSpeakers, getSpeeches, getSpeech, querySpeech, moveToTrashBin,
createSpeaker, getNotificationSettings, listGroups, getFolders) and the
upload pipeline return a non-2xx remote status to the caller as the
`(status, data)` envelope without throwing — for the pipeline this covers
every branch: a non-200 step 1, a non-200 preflight, a non-201 S3 POST,
and the finish call's envelope returned as-is whatever its status; but
`downloadSpeech` with a non-200 remote status throws the download domain
error instead of returning the envelope, and `getAllSpeeches` converts a
non-200 underlying `getSpeeches` status into a thrown exception. -/
theorem c2_amended_envelope_passthrough (c : OtterAI) (u p : String)
    (rL : LoginResp) (rS : SimpleResp) (rSp : SpeechesResp) (r1 : Step1Resp)
    (rD : DownloadResp) (r1ok : Step1Resp) (r2ok r2ne : SimpleResp)
    (r3ne r3ok : S3Resp) (r4 : SimpleResp) (folder pageSize maxSpeeches size : Nat)
    (source speechId query fileName contentType speakerName fileFormat : String)
    (name : Option String) (net2 : TR SimpleResp) (net3 : TR S3Resp)
    (net4 : TR SimpleResp)
    (hv : c.isUseridInvalid = false) (hL : rL.status ≠ 200) (hS : rS.status ≠ 200)
    (hSp : rSp.status ≠ 200) (h1 : r1.status ≠ 200) (hD : rD.status ≠ 200)
    (h1ok : r1ok.status = 200) (h2ok : r2ok.status = 200) (h2ne : r2ne.status ≠ 200)
    (h3ne : r3ne.status ≠ 201) (h3ok : r3ok.status = 201) :
    (c.login u p (.ok rL)).result = .ok ⟨rL.status, rL.body⟩ ∧
    (c.getUser (.ok rS)).result = .ok ⟨rS.status, rS.body⟩ ∧
    (c.getSpeakers (.ok rS)).result = .ok ⟨rS.status, rS.body⟩ ∧
    (c.getSpeeches folder pageSize source (.ok rSp)).result = .ok ⟨rSp.status, rSp.body⟩ ∧
    (c.getSpeech speechId (.ok rS)).result = .ok ⟨rS.status, rS.body⟩ ∧
    (c.querySpeech query speechId size (.ok rS)).result = .ok ⟨rS.status, rS.body⟩ ∧
    (c.moveToTrashBin speechId (.ok rS)).result = .ok ⟨rS.status, rS.body⟩ ∧
    (c.createSpeaker speakerName (.ok rS)).result = .ok ⟨rS.status, rS.body⟩ ∧
    (c.getNotificationSettings (.ok rS)).result = .ok ⟨rS.status, rS.body⟩ ∧
    (c.listGroups (.ok rS)).result = .ok ⟨rS.status, rS.body⟩ ∧
    (c.getFolders (.ok rS)).result = .ok ⟨rS.status, rS.body⟩ ∧
    (c.uploadSpeech fileName contentType (.ok r1) net2 net3 net4).result =
      .ok ⟨r1.status, .fromStep1 r1.body⟩ ∧
    (c.uploadSpeech fileName contentType (.ok r1ok) (.ok r2ne) net3 net4).result =
      .ok ⟨r2ne.status, .fromPreflight r2ne.body⟩ ∧
    (c.uploadSpeech fileName contentType (.ok r1ok) (.ok r2ok) (.ok r3ne) net4).result =
      .ok ⟨r3ne.status, .fromS3 r3ne.body⟩ ∧
    (c.uploadSpeech fileName contentType (.ok r1ok) (.ok r2ok) (.ok r3ok)
        (.ok r4)).result = .ok ⟨r4.status, .fromFinish r4.body⟩ ∧
    (c.downloadSpeech speechId name fileFormat (.ok rD)).result =
      .error ("Download speech failed: Got response status " ++ toString rD.status ++
        " when attempting to download " ++ speechId) ∧
    (c.getAllSpeeches folder source maxSpeeches (.ok rSp)).result =
      .error ("Get all speeches failed: Failed to get speeches: " ++
        toString rSp.status) := by
  refine ⟨?_, ?_, ?_, ?_, ?_, ?_, ?_, ?_, ?_, ?_, ?_, ?_, ?_, ?_, ?_, ?_, ?_⟩
  · simp [OtterAI.login, hL]
  · simp [OtterAI.getUser]
  · simp [OtterAI.getSpeakers, hv]
  · simp [OtterAI.getSpeeches, hv]
  · simp [OtterAI.getSpeech, hv]
  · simp [OtterAI.querySpeech]
  · simp [OtterAI.moveToTrashBin, hv]
  · simp [OtterAI.createSpeaker, hv]
  · simp [OtterAI.getNotificationSettings]
  · simp [OtterAI.listGroups, hv]
  · simp [OtterAI.getFolders, hv]
  · simp [OtterAI.uploadSpeech, hv, h1]
  · simp [OtterAI.uploadSpeech, hv, h1ok, h2ne]
  · simp [OtterAI.uploadSpeech, hv, h1ok, h2ok, h3ne]
  · simp [OtterAI.uploadSpeech, hv, h1ok, h2ok, h3ok]
  · rw [OtterAI.downloadSpeech, hv]
    simp only [Bool.false_eq_true, if_false]
    rw [if_neg hD]
  · rcases hsp : rSp.body.speeches with _ | l <;>
      simp [OtterAI.getAllSpeeches, OtterAI.getSpeeches, hv, hSp, hsp]

/-- Witness for the amended C2 at concrete non-2xx responses. -/
theorem c2_amended_envelope_passthrough_witness :
    ((⟨some "u", [], none⟩ : OtterAI).isUseridInvalid = false ∧ (401 : Nat) ≠ 200 ∧
      (403 : Nat) ≠ 200 ∧ (404 : Nat) ≠ 200 ∧ (500 : Nat) ≠ 200 ∧
      (404 : Nat) ≠ 200 ∧ (200 : Nat) = 200 ∧ (200 : Nat) = 200 ∧
      (418 : Nat) ≠ 200 ∧ (400 : Nat) ≠ 201 ∧ (201 : Nat) = 201) ∧
    (((⟨some "u", [], none⟩ : OtterAI).login "u" "p"
        (.ok ⟨401, ⟨none, "e"⟩, []⟩)).result = .ok ⟨401, ⟨none, "e"⟩⟩ ∧
      ((⟨some "u", [], none⟩ : OtterAI).getUser (.ok ⟨403, "e"⟩)).result =
        .ok ⟨403, "e"⟩ ∧
      ((⟨some "u", [], none⟩ : OtterAI).getSpeakers (.ok ⟨403, "e"⟩)).result =
        .ok ⟨403, "e"⟩ ∧
      ((⟨some "u", [], none⟩ : OtterAI).getSpeeches 0 45 "owned"
          (.ok ⟨404, ⟨none, "e"⟩⟩)).result = .ok ⟨404, ⟨none, "e"⟩⟩ ∧
      ((⟨some "u", [], none⟩ : OtterAI).getSpeech "id1" (.ok ⟨403, "e"⟩)).result =
        .ok ⟨403, "e"⟩ ∧
      ((⟨some "u", [], none⟩ : OtterAI).querySpeech "q" "id1" 500
          (.ok ⟨403, "e"⟩)).result = .ok ⟨403, "e"⟩ ∧
      ((⟨some "u", [], none⟩ : OtterAI).moveToTrashBin "id1" (.ok ⟨403, "e"⟩)).result =
        .ok ⟨403, "e"⟩ ∧
      ((⟨some "u", [], none⟩ : OtterAI).createSpeaker "alice"
          (.ok ⟨403, "e"⟩)).result = .ok ⟨403, "e"⟩ ∧
      ((⟨some "u", [], none⟩ : OtterAI).getNotificationSettings
          (.ok ⟨403, "e"⟩)).result = .ok ⟨403, "e"⟩ ∧
      ((⟨some "u", [], none⟩ : OtterAI).listGroups (.ok ⟨403, "e"⟩)).result =
        .ok ⟨403, "e"⟩ ∧
      ((⟨some "u", [], none⟩ : OtterAI).getFolders (.ok ⟨403, "e"⟩)).result =
        .ok ⟨403, "e"⟩ ∧
      ((⟨some "u", [], none⟩ : OtterAI).uploadSpeech "f.mp4" "audio/mp4"
          (.ok ⟨500, ⟨[], "e"⟩⟩) (.ok ⟨200, "b"⟩) (.ok ⟨201, ⟨"L", "B", "K"⟩⟩)
          (.ok ⟨200, "b"⟩)).result = .ok ⟨500, .fromStep1 ⟨[], "e"⟩⟩ ∧
      ((⟨some "u", [], none⟩ : OtterAI).uploadSpeech "f.mp4" "audio/mp4"
          (.ok ⟨200, ⟨[], "p"⟩⟩) (.ok ⟨418, "nope"⟩) (.ok ⟨201, ⟨"L", "B", "K"⟩⟩)
          (.ok ⟨200, "b"⟩)).result = .ok ⟨418, .fromPreflight "nope"⟩ ∧
      ((⟨some "u", [], none⟩ : OtterAI).uploadSpeech "f.mp4" "audio/mp4"
          (.ok ⟨200, ⟨[], "p"⟩⟩) (.ok ⟨200, "ok"⟩) (.ok ⟨400, ⟨"L", "B", "K"⟩⟩)
          (.ok ⟨200, "b"⟩)).result = .ok ⟨400, .fromS3 ⟨"L", "B", "K"⟩⟩ ∧
      ((⟨some "u", [], none⟩ : OtterAI).uploadSpeech "f.mp4" "audio/mp4"
          (.ok ⟨200, ⟨[], "p"⟩⟩) (.ok ⟨200, "ok"⟩) (.ok ⟨201, ⟨"L", "B", "K"⟩⟩)
          (.ok ⟨502, "bad"⟩)).result = .ok ⟨502, .fromFinish "bad"⟩ ∧
      ((⟨some "u", [], none⟩ : OtterAI).downloadSpeech "id1" none "txt"
          (.ok ⟨404, "e"⟩)).result =
        .error ("Download speech failed: Got response status " ++ toString (404 : Nat) ++
          " when attempting to download " ++ "id1") ∧
      ((⟨some "u", [], none⟩ : OtterAI).getAllSpeeches 0 "owned" 1000
          (.ok ⟨404, ⟨none, "e"⟩⟩)).result =
        .error ("Get all speeches failed: Failed to get speeches: " ++
          toString (404 : Nat))) :=
  ⟨⟨rfl, by decide, by decide, by decide, by decide, by decide, rfl, rfl,
      by decide, by decide, rfl⟩,
    c2_amended_envelope_passthrough ⟨some "u", [], none⟩ "u" "p"
      ⟨401, ⟨none, "e"⟩, []⟩ ⟨403, "e"⟩ ⟨404, ⟨none, "e"⟩⟩ ⟨500, ⟨[], "e"⟩⟩
      ⟨404, "e"⟩ ⟨200, ⟨[], "p"⟩⟩ ⟨200, "ok"⟩ ⟨418, "nope"⟩ ⟨400, ⟨"L", "B", "K"⟩⟩
      ⟨201, ⟨"L", "B", "K"⟩⟩ ⟨502, "bad"⟩
      0 45 1000 500 "owned" "id1" "q" "f.mp4" "audio/mp4" "alice" "txt"
      none (.ok ⟨200, "b"⟩) (.ok ⟨201, ⟨"L", "B", "K"⟩⟩) (.ok ⟨200, "b"⟩)
      rfl (by decide) (by decide) (by decide) (by decide) (by decide)
      rfl rfl (by decide) (by decide) rfl⟩

/-- Claim C5: when the step-2 preflight OPTIONS response has a status
other than 200, `uploadSpeech` returns exactly the preflight envelope,
attempts only the step-1 and step-2 requests (no S3 POST, no finish
call), leaves the state unchanged, and writes nothing. -/
theorem c5_preflight_short_circuit (c : OtterAI) (fileName contentType : String)
    (r1 : Step1Resp) (r2 : SimpleResp) (net3 : TR S3Resp) (net4 : TR SimpleResp)
    (hv : c.isUseridInvalid = false) (h1 : r1.status = 200) (h2 : r2.status ≠ 200) :
    c.uploadSpeech fileName contentType (.ok r1) (.ok r2) net3 net4 =
      ⟨.ok ⟨r2.status, .fromPreflight r2.body⟩, c,
        [⟨.uploadParamsEP, c.cookieHeader, []⟩, ⟨.s3optionsEP, c.cookieHeader, []⟩],
        []⟩ := by
  simp [OtterAI.uploadSpeech, hv, h1, h2]

/-- Witness for C5 at a concrete 403 preflight response. -/
theorem c5_preflight_short_circuit_witness :
    ((⟨some "u", [], none⟩ : OtterAI).isUseridInvalid = false ∧ (200 : Nat) = 200 ∧
      (403 : Nat) ≠ 200) ∧
    (⟨some "u", [], none⟩ : OtterAI).uploadSpeech "f.mp4" "audio/mp4"
        (.ok ⟨200, ⟨[("policy", .vstr "P")], "r"⟩⟩) (.ok ⟨403, "denied"⟩)
        (.ok ⟨201, ⟨"L", "B", "K"⟩⟩) (.ok ⟨200, "b"⟩) =
      ⟨.ok ⟨403, .fromPreflight "denied"⟩, ⟨some "u", [], none⟩,
        [⟨.uploadParamsEP, none, []⟩, ⟨.s3optionsEP, none, []⟩], []⟩ :=
  ⟨⟨rfl, rfl, by decide⟩,
    c5_preflight_short_circuit ⟨some "u", [], none⟩ "f.mp4" "audio/mp4"
      ⟨200, ⟨[("policy", .vstr "P")], "r"⟩⟩ ⟨403, "denied"⟩
      (.ok ⟨201, ⟨"L", "B", "K"⟩⟩) (.ok ⟨200, "b"⟩) rfl rfl (by decide)⟩

/-- Claim C4: every successful result of `getAllSpeechesFromAllSources`
has `all_speeches` equal to the owned list followed by the shared list,
its length equal to `owned_count + shared_count`, and `total_count` equal
to `owned_count + shared_count`. -/
theorem c4_merge_invariants (c : OtterAI) (folder maxPerSource : Nat)
    (netOwned netShared : TR SpeechesResp) (env : Envelope AllSourcesData)
    (h : (c.getAllSpeechesFromAllSources folder maxPerSource netOwned netShared).result
      = .ok env) :
    env.data.all_speeches = env.data.owned ++ env.data.shared ∧
    env.data.all_speeches.length =
      env.data.summary.owned_count + env.data.summary.shared_count ∧
    env.data.summary.total_count =
      env.data.summary.owned_count + env.data.summary.shared_count ∧
    env.data.summary.owned_count = env.data.owned.length ∧
    env.data.summary.shared_count = env.data.shared.length := by
  rw [OtterAI.getAllSpeechesFromAllSources] at h
  by_cases hv : c.isUseridInvalid = true
  · simp [hv] at h
  · rw [if_neg hv] at h
    simp only at h
    rcases hO : (c.getAllSpeeches folder "owned" maxPerSource netOwned).result with
      mO | envO <;>
      rcases hS : (c.getAllSpeeches folder "shared" maxPerSource netShared).result with
        mS | envS <;>
      rw [hO, hS] at h <;> simp only at h <;>
      rcases Except.ok.inj h with rfl <;>
      simp [List.length_append]

/-- Witness for C4 at a concrete pair of successful source fetches. -/
theorem c4_merge_invariants_witness :
    ((⟨some "u", [], none⟩ : OtterAI).getAllSpeechesFromAllSources 0 500
        (.ok ⟨200, ⟨some ["a", "b"], "r"⟩⟩) (.ok ⟨200, ⟨some ["s1"], "r"⟩⟩)).result =
      .ok ⟨200, ⟨["a", "b"], ["s1"], 3, ["a", "b", "s1"], ⟨2, 1, 3⟩⟩⟩ ∧
    ((["a", "b", "s1"] : List Speech) = ["a", "b"] ++ ["s1"] ∧
      (["a", "b", "s1"] : List Speech).length = 2 + 1 ∧
      (3 : Nat) = 2 + 1 ∧ (2 : Nat) = (["a", "b"] : List Speech).length ∧
      (1 : Nat) = (["s1"] : List Speech).length) :=
  ⟨by decide,
    c4_merge_invariants ⟨some "u", [], none⟩ 0 500
      (.ok ⟨200, ⟨some ["a", "b"], "r"⟩⟩) (.ok ⟨200, ⟨some ["s1"], "r"⟩⟩)
      ⟨200, ⟨["a", "b"], ["s1"], 3, ["a", "b", "s1"], ⟨2, 1, 3⟩⟩⟩ (by decide)⟩

/-- Claim C6: when fetching the `shared` source throws, the aggregate
output of `getAllSpeechesFromAllSources` is identical to the output had
the shared fetch succeeded with zero items, and it is a status-200
envelope with `shared_count = 0`, an empty shared list, and the owned
data untouched. -/
theorem c6_shared_failure_degrades (c : OtterAI) (folder maxProSource : Nat)
    (netOwned : TR SpeechesResp) (e rest : String)
    (hv : c.isUseridInvalid = false) :
    c.getAllSpeechesFromAllSources folder maxProSource netOwned (.error e) =
      c.getAllSpeechesFromAllSources folder maxProSource netOwned
        (.ok ⟨200, ⟨some [], rest⟩⟩) ∧
    ∃ env : Envelope AllSourcesData,
      (c.getAllSpeechesFromAllSources folder maxProSource netOwned
          (.error e)).result = .ok env ∧
      env.status = 200 ∧ env.data.summary.shared_count = 0 ∧ env.data.shared = [] := by
  have hshErr :
      (c.getAllSpeeches folder "shared" maxProSource (.error e)).result =
        .error ("Get all speeches failed: " ++ ("Get speeches failed: " ++ e)) := by
    simp [OtterAI.getAllSpeeches, OtterAI.getSpeeches, hv]
  have hshOk :
      (c.getAllSpeeches folder "shared" maxProSource
          (.ok ⟨200, ⟨some [], rest⟩⟩)).result =
        .ok ⟨200, ⟨[], 0,
          if (0 : Nat) = min maxProSource 200 then
            "Max page size reached - there may be more speeches"
          else "All available speeches retrieved"⟩⟩ := by
    simp only [OtterAI.getAllSpeeches, OtterAI.getSpeeches, hv]
    simp
  have hcallsErr :
      (c.getAllSpeeches folder "shared" maxProSource (.error e)).calls =
        [⟨.speechesEP, c.cookieHeader, []⟩] := by
    simp [OtterAI.getAllSpeeches, OtterAI.getSpeeches, hv]
  have hcallsOk :
      (c.getAllSpeeches folder "shared" maxProSource
          (.ok ⟨200, ⟨some [], rest⟩⟩)).calls =
        [⟨.speechesEP, c.cookieHeader, []⟩] := by
    simp only [OtterAI.getAllSpeeches, OtterAI.getSpeeches, hv]
    simp
  constructor
  · rw [OtterAI.getAllSpeechesFromAllSources, OtterAI.getAllSpeechesFromAllSources,
      if_neg (by simp [hv]), if_neg (by simp [hv])]
    simp only [hshErr, hshOk, hcallsErr, hcallsOk]
    simp
  · rw [OtterAI.getAllSpeechesFromAllSources, if_neg (by simp [hv])]
    simp only [hshErr]
    exact ⟨_, rfl, rfl, rfl, rfl⟩

/-- Witness for C6 at a concrete owned fetch and a thrown shared fetch. -/
theorem c6_shared_failure_degrades_witness :
    (⟨some "u", [], none⟩ : OtterAI).isUseridInvalid = false ∧
    ((⟨some "u", [], none⟩ : OtterAI).getAllSpeechesFromAllSources 0 500
        (.ok ⟨200, ⟨some ["a"], "r"⟩⟩) (.error "boom") =
      (⟨some "u", [], none⟩ : OtterAI).getAllSpeechesFromAllSources 0 500
        (.ok ⟨200, ⟨some ["a"], "r"⟩⟩) (.ok ⟨200, ⟨some [], "rest"⟩⟩) ∧
      ∃ env : Envelope AllSourcesData,
        ((⟨some "u", [], none⟩ : OtterAI).getAllSpeechesFromAllSources 0 500
            (.ok ⟨200, ⟨some ["a"], "r"⟩⟩) (.error "boom")).result = .ok env ∧
        env.status = 200 ∧ env.data.summary.shared_count = 0 ∧ env.data.shared = []) :=
  ⟨rfl, c6_shared_failure_degrades ⟨some "u", [], none⟩ 0 500
    (.ok ⟨200, ⟨some ["a"], "r"⟩⟩) "boom" "rest" rfl⟩

theorem jlookup_jset_self (m : List (String × JVal)) (k : String) (v : JVal) :
    jlookup (jset m k v) k = some v := by
  induction m with
  | nil => simp [jset, jlookup]
  | cons p rest ih =>
      by_cases h : p.1 = k
      · simp [jset, h, jlookup]
      · simp [jset, h, jlookup, ih]

theorem jlookup_jdelete_ne (m : List (String × JVal)) (d k : String) (h : k ≠ d) :
    jlookup (jdelete m d) k = jlookup m k := by
  induction m with
  | nil => rfl
  | cons p rest ih =>
      by_cases hd : p.1 = d
      · have hdk : d ≠ k := fun hc => h hc.symm
        simp [jdelete, hd, jlookup, ih, hdk, fun hc : p.1 = k => h (hc ▸ hd ▸ rfl : k = d)]
      · by_cases hk : p.1 = k
        · simp [jdelete, hd, jlookup, hk, ih, fun hc : k = d => h hc]
        · simp [jdelete, hd, jlookup, hk, ih]

theorem jlookup_jdelete_self (m : List (String × JVal)) (d : String) :
    jlookup (jdelete m d) d = none := by
  induction m with
  | nil => rfl
  | cons p rest ih =>
      by_cases hd : p.1 = d <;> simp [jdelete, hd, jlookup, ih]

theorem formLookup_mapped (l : List (String × JVal)) (tail : List (String × FormEntry))
    (k : String) :
    formLookup (l.map (fun p => (p.1, FormEntry.jval p.2)) ++ tail) k =
      (match jlookup l k with
       | some v => some (FormEntry.jval v)
       | none => formLookup tail k) := by
  induction l with
  | nil => rfl
  | cons p rest ih =>
      by_cases h : p.1 = k <;> simp [jlookup, formLookup, h, ih]

/-- Claim C7: whenever `uploadSpeech` reaches step 3 (step 1 and the
preflight both return 200), the multipart form it POSTs is exactly
`uploadForm` of the step-1 parameters, and in that form
`success_action_status` is present as a string-valued field — whatever
type step 1 delivered — while `form_action` is absent. -/
theorem c7_form_fields (c : OtterAI) (fileName contentType : String)
    (r1 : Step1Resp) (r2 : SimpleResp) (net3 : TR S3Resp) (net4 : TR SimpleResp)
    (hv : c.isUseridInvalid = false) (h1 : r1.status = 200) (h2 : r2.status = 200) :
    (c.uploadSpeech fileName contentType (.ok r1) (.ok r2) net3 net4).calls.take 3 =
      [⟨.uploadParamsEP, c.cookieHeader, []⟩, ⟨.s3optionsEP, c.cookieHeader, []⟩,
        ⟨.s3postEP, none, uploadForm r1.body.data fileName contentType⟩] ∧
    isStrEntry
      (formLookup (uploadForm r1.body.data fileName contentType)
        "success_action_status") = true ∧
    formLookup (uploadForm r1.body.data fileName contentType) "form_action" = none := by
  refine ⟨?_, ?_, ?_⟩
  · rw [OtterAI.uploadSpeech, if_neg (by simp [hv])]
    simp only [h1, h2]
    rcases net3 with m | r3
    · simp
    · by_cases h3 : r3.status = 201 <;> rcases net4 with m4 | r4 <;> simp [h3]
  · rw [uploadForm, formLookup_mapped]
    rw [jlookup_jdelete_ne _ _ _ (by decide), jlookup_jset_self]
    rfl
  · rw [uploadForm, formLookup_mapped]
    rw [jlookup_jdelete_self]
    rfl

/-- Witness for C7 at a step-1 response delivering
`success_action_status` as the number 201 together with a `form_action`
field. -/
theorem c7_form_fields_witness :
    ((⟨some "u", [], none⟩ : OtterAI).isUseridInvalid = false ∧ (200 : Nat) = 200 ∧
      (200 : Nat) = 200) ∧
    (((⟨some "u", [], none⟩ : OtterAI).uploadSpeech "f.mp4" "audio/mp4"
          (.ok ⟨200, ⟨[("success_action_status", .vnum 201),
            ("form_action", .vstr "https://s3/x"), ("policy", .vstr "P")], "r"⟩⟩)
          (.ok ⟨200, "ok"⟩) (.ok ⟨201, ⟨"L", "B", "K"⟩⟩)
          (.ok ⟨200, "done"⟩)).calls.take 3 =
        [⟨.uploadParamsEP, none, []⟩, ⟨.s3optionsEP, none, []⟩,
          ⟨.s3postEP, none,
            uploadForm [("success_action_status", .vnum 201),
              ("form_action", .vstr "https://s3/x"), ("policy", .vstr "P")]
              "f.mp4" "audio/mp4"⟩] ∧
      isStrEntry
        (formLookup
          (uploadForm [("success_action_status", .vnum 201),
            ("form_action", .vstr "https://s3/x"), ("policy", .vstr "P")]
            "f.mp4" "audio/mp4")
          "success_action_status") = true ∧
      formLookup
        (uploadForm [("success_action_status", .vnum 201),
          ("form_action", .vstr "https://s3/x"), ("policy", .vstr "P")]
          "f.mp4" "audio/mp4")
        "form_action" = none) :=
  ⟨⟨rfl, rfl, rfl⟩,
    c7_form_fields ⟨some "u", [], none⟩ "f.mp4" "audio/mp4"
      ⟨200, ⟨[("success_action_status", .vnum 201),
        ("form_action", .vstr "https://s3/x"), ("policy", .vstr "P")], "r"⟩⟩
      ⟨200, "ok"⟩ (.ok ⟨201, ⟨"L", "B", "K"⟩⟩) (.ok ⟨200, "done"⟩) rfl rfl rfl⟩

/-- Counterexample to C9: with the empty string as `name` (a non-null
name), the code writes `id1.txt` — it falls back to the speech id — while
the claim's `(name ?? speechId)` formula (captured by `specFilename`)
yields `.txt`; JS uses the falsy `||`, not `??`. -/
theorem c9_counterexample :
    ((⟨some "u", [], none⟩ : OtterAI).downloadSpeech "id1" (some "") "txt"
        (.ok ⟨200, "bytes"⟩)).writes = ["id1.txt"] ∧
    ((⟨some "u", [], none⟩ : OtterAI).downloadSpeech "id1" (some "") "txt"
        (.ok ⟨200, "bytes"⟩)).result = .ok ⟨200, ⟨"id1.txt"⟩⟩ ∧
    specFilename "id1" (some "") "txt" = ".txt" ∧
    ("id1.txt" : String) ≠ ".txt" := by
  refine ⟨by decide, by decide, by decide, by decide⟩

/-- Claim C9 as amended: a successful `downloadSpeech(speechId, name,
fileFormat)` writes the file under, and reports, the filename
`(name, falling back to speechId when name is null, undefined, or empty)
+ "." + ("zip" when fileFormat contains a comma, else fileFormat)`; in
particular `downloadSpeech("id1", null, "txt,pdf")` produces `id1.zip`
and `downloadSpeech("id1", "custom", "txt")` produces `custom.txt`. -/
theorem c9_download_filename (c : OtterAI) (speechId : String) (name : Option String)
    (fileFormat : String) (r : DownloadResp)
    (hv : c.isUseridInvalid = false) (h200 : r.status = 200) :
    (c.downloadSpeech speechId name fileFormat (.ok r)).result =
      .ok ⟨200, ⟨downloadFilename speechId name fileFormat⟩⟩ ∧
    (c.downloadSpeech speechId name fileFormat (.ok r)).writes =
      [downloadFilename speechId name fileFormat] ∧
    downloadFilename speechId name fileFormat =
      (match name with
       | some s => if s = "" then speechId else s
       | none => speechId) ++ "." ++
        (if jsIncludes fileFormat ',' then "zip" else fileFormat) ∧
    downloadFilename "id1" none "txt,pdf" = "id1.zip" ∧
    downloadFilename "id1" (some "custom") "txt" = "custom.txt" := by
  refine ⟨?_, ?_, rfl, by decide, by decide⟩ <;>
    simp [OtterAI.downloadSpeech, hv, h200]

/-- Witness for the amended C9 at the claim's two example calls. -/
theorem c9_download_filename_witness :
    ((⟨some "u", [], none⟩ : OtterAI).isUseridInvalid = false ∧ (200 : Nat) = 200) ∧
    (((⟨some "u", [], none⟩ : OtterAI).downloadSpeech "id1" none "txt,pdf"
          (.ok ⟨200, "bytes"⟩)).result =
        .ok ⟨200, ⟨downloadFilename "id1" none "txt,pdf"⟩⟩ ∧
      ((⟨some "u", [], none⟩ : OtterAI).downloadSpeech "id1" none "txt,pdf"
          (.ok ⟨200, "bytes"⟩)).writes = [downloadFilename "id1" none "txt,pdf"] ∧
      downloadFilename "id1" none "txt,pdf" =
        (match (none : Option String) with
         | some s => if s = "" then "id1" else s
         | none => "id1") ++ "." ++
          (if jsIncludes "txt,pdf" ',' then "zip" else "txt,pdf") ∧
      downloadFilename "id1" none "txt,pdf" = "id1.zip" ∧
      downloadFilename "id1" (some "custom") "txt" = "custom.txt") :=
  ⟨⟨rfl, rfl⟩,
    c9_download_filename ⟨some "u", [], none⟩ "id1" none "txt,pdf"
      ⟨200, "bytes"⟩ rfl rfl⟩

end OtterJS

